import Mathlib

/-!
Shallow embedding of the saree-catalog browsing page
(src/src/sareecategoly.tsx) and verification of its specification.

JavaScript values that may be absent or falsy are modelled with
Option String: none is undefined/null, some "" is the empty (falsy)
string, and any other some s is truthy.  JS Sets are modelled as
Finset String, arrays as lists, and the component state as a structure
AppState whose fields are the useState hooks of the component.
-/

namespace Saree

/-- JS truthiness of a possibly absent string: a string is truthy
exactly when it is present and nonempty. -/
def isTruthy : Option String → Bool
  | none => false
  | some s => s != ""

/-- The JS expression a || b on possibly absent strings: the first
operand when it is truthy, otherwise the second operand. -/
def jsOr (a b : Option String) : Option String :=
  if isTruthy a then a else b

/-- JS s.toLowerCase() on a string, modelled character by character. -/
def jsToLower (s : String) : String :=
  ⟨s.data.map Char.toLower⟩

/-- JS hay.includes(needle) on character lists: needle occurs as a
contiguous substring of hay. -/
def charsInclude (hay needle : List Char) : Bool :=
  match hay with
  | [] => needle.isEmpty
  | _ :: t => needle.isPrefixOf hay || charsInclude t needle

/-- JS hay.includes(needle) on strings. -/
def jsIncludes (hay needle : String) : Bool :=
  charsInclude hay.data needle.data

/-- JS fileName.split(".").slice(0, -1).join("."): the file name with
its final extension removed (empty when there is no dot). -/
def fileStem (s : String) : String :=
  String.intercalate "." ((s.splitOn ".").dropLast)

-- ---------- Raw (fetched) data ----------

/-- A raw item record as it may arrive from the remote catalog API:
every field may be absent. -/
structure FileObj where
  id : Option String
  fileId : Option String
  name : Option String
  title : Option String
  fileName : Option String
  image : Option String
deriving DecidableEq, Repr

/-- A raw subfolder record from the API; the three item arrays may be
absent, and each entry of an array may itself be a falsy value
(modelled as none). -/
structure RawSub where
  id : String
  name : String
  preview : Option (List (Option FileObj))
  files : Option (List (Option FileObj))
  all : Option (List (Option FileObj))
deriving DecidableEq, Repr

/-- A raw category record from the API. -/
structure RawCat where
  id : String
  name : String
  subfolders : Option (List RawSub)
deriving DecidableEq, Repr

-- ---------- Normalized data (the TS interfaces) ----------

/-- interface CatalogItem.  The TS annotations promise strings, but the
normalization can in fact produce absent ids and names, so the fields
are modelled as possibly absent. -/
structure CatalogItem where
  id : Option String
  name : Option String
  image : Option String
deriving DecidableEq, Repr

/-- interface Subfolder. -/
structure Subfolder where
  id : String
  name : String
  preview : List CatalogItem
  all : List CatalogItem
deriving DecidableEq, Repr

/-- interface Category. -/
structure Category where
  id : String
  name : String
  subfolders : List Subfolder
deriving DecidableEq, Repr

-- ---------- Normalization (normalizeFileObj / normalizeFilesArray) ----------

/-- function normalizeFileObj(f): null for a falsy input, otherwise an
item built by the JS fallback chains
id = f.id || f.fileId || f.name,
name = f.name || f.title || f.fileName?.split(".").slice(0,-1).join(".") || id,
image = f.image || (id ? drive url : null). -/
def normalizeFileObj : Option FileObj → Option CatalogItem
  | none => none
  | some f =>
    let i := jsOr f.id (jsOr f.fileId f.name)
    let n := jsOr f.name (jsOr f.title (jsOr (f.fileName.map fileStem) i))
    let im := jsOr f.image
      (if isTruthy i then some ("https://drive.google.com/uc?id=" ++ i.getD "") else none)
    some ⟨i, n, im⟩

/-- The keep condition of the final filter of normalizeFilesArray:
(v, i, a) => v.id && a.findIndex(x => x.id === v.id) === i. -/
def keepFirst (a : List CatalogItem) (i : Nat) (v : CatalogItem) : Bool :=
  isTruthy v.id && (a.findIdx (fun x => x.id == v.id) == i)

/-- function normalizeFilesArray(arr): map normalizeFileObj, drop the
nulls, then keep an item only when its id is truthy and it is the first
occurrence of that id. -/
def normalizeFilesArray (arr : List (Option FileObj)) : List CatalogItem :=
  ((arr.filterMap normalizeFileObj).enum.filter
      (fun p => keepFirst (arr.filterMap normalizeFileObj) p.1 p.2)).map Prod.snd

-- ---------- loadCatalog ----------

/-- The JS expression a || b || [] on possibly absent arrays (a present
array, even the empty one, is truthy). -/
def pickArr (a b : Option (List (Option FileObj))) : List (Option FileObj) :=
  match a with
  | some xs => xs
  | none => match b with
    | some ys => ys
    | none => []

/-- The per-subfolder normalization inside loadCatalog: preview is the
first 5 normalized entries of sub.preview || sub.files || [], all is
the normalized sub.all || sub.files || [] with fallback to preview when
it is empty. -/
def normalizeSub (sub : RawSub) : Subfolder :=
  let preview := (normalizeFilesArray (pickArr sub.preview sub.files)).take 5
  let allFiles := normalizeFilesArray (pickArr sub.all sub.files)
  { id := sub.id
    name := sub.name
    preview := preview
    all := if allFiles.isEmpty then preview else allFiles }

/-- The whole-catalog normalization inside loadCatalog. -/
def normalizeCatalog (data : List RawCat) : List Category :=
  data.map (fun cat =>
    { id := cat.id
      name := cat.name
      subfolders := (cat.subfolders.getD []).map normalizeSub })

/-- The outcome of tryFetchJson followed by the Array.isArray check:
the fetch failed (tryFetchJson returned null because the response was
not ok or threw), or it returned JSON that is not an array, or it
returned an array of raw categories. -/
inductive FetchResult where
  | fail
  | nonArray
  | ok (cats : List RawCat)
deriving DecidableEq, Repr

/-- The fetch outcomes on which loadCatalog takes its error path. -/
def FetchResult.isBad : FetchResult → Bool
  | .ok _ => false
  | _ => true

/-- The grid/list view toggle. -/
inductive ViewMode where
  | grid
  | list
deriving DecidableEq, Repr

/-- The component state: one field per useState hook of SareeCatalog. -/
structure AppState where
  catalog : List Category
  loading : Bool
  activeSubfolder : Option String
  lightboxIndex : Option Nat
  lightboxItems : List CatalogItem
  error : Option String
  searchQuery : String
  selectedCategories : Finset String
  favorites : Finset String
  mobileMenuOpen : Bool
  viewMode : ViewMode
  showFilters : Bool
deriving DecidableEq

/-- async function loadCatalog(), as a state transition parameterized by
the fetch outcome: on a non-array outcome it sets the static error
message and stops; on an array it stores the normalized catalog with
the error cleared.  Loading ends false on every path. -/
def loadCatalog (s : AppState) (data : FetchResult) : AppState :=
  match data with
  | .ok cats =>
      { s with loading := false, error := none, catalog := normalizeCatalog cats }
  | _ =>
      { s with loading := false, error := some "Cannot fetch catalog" }

-- ---------- Filtering ----------

/-- The subfolder filter predicate inside filteredCatalog:
matchesSearch && matchesCategory, exactly as the source computes it. -/
def subMatches (category : Category) (searchQuery : String)
    (selectedCategories : Finset String) (sub : Subfolder) : Bool :=
  (searchQuery == ""
    || jsIncludes (jsToLower sub.name) (jsToLower searchQuery)
    || jsIncludes (jsToLower category.name) (jsToLower searchQuery))
  && (selectedCategories.card == 0 || decide (category.id ∈ selectedCategories))

/-- The filteredCatalog useMemo: the catalog itself when the query is
falsy and no category is selected, otherwise the per-category filtered
subfolders with subfolder-less categories dropped. -/
def filteredCatalog (catalog : List Category) (searchQuery : String)
    (selectedCategories : Finset String) : List Category :=
  if searchQuery = "" ∧ selectedCategories.card = 0 then catalog
  else
    (catalog.map (fun category =>
      { category with
        subfolders := category.subfolders.filter
          (subMatches category searchQuery selectedCategories) })).filter
      (fun category => decide (category.subfolders.length > 0))

-- ---------- UI state handlers ----------

/-- function toggleSubfolder(subId), acting on the activeSubfolder
state: collapse when subId is already the active one, otherwise make
subId the active subfolder. -/
def toggleSubfolder (subId : String) (prev : Option String) : Option String :=
  if prev = some subId then none else some subId

/-- function prevImage(), acting on the lightboxIndex state given the
current lightboxItems. -/
def prevImage (lightboxItems : List CatalogItem) (prev : Option Nat) : Option Nat :=
  match prev with
  | none => none
  | some p => some (if p > 0 then p - 1 else lightboxItems.length - 1)

/-- function nextImage(), acting on the lightboxIndex state given the
current lightboxItems. -/
def nextImage (lightboxItems : List CatalogItem) (prev : Option Nat) : Option Nat :=
  match prev with
  | none => none
  | some p => some (if p < lightboxItems.length - 1 then p + 1 else 0)

/-- function toggleFavorite(itemId), acting on the favorites set. -/
def toggleFavorite (itemId : String) (prev : Finset String) : Finset String :=
  if itemId ∈ prev then prev.erase itemId else insert itemId prev

/-- function toggleCategoryFilter(categoryId), acting on the
selectedCategories set. -/
def toggleCategoryFilter (categoryId : String) (prev : Finset String) : Finset String :=
  if categoryId ∈ prev then prev.erase categoryId else insert categoryId prev

/-- function clearAllFilters(): empty the selected categories and blank
the search query, touching nothing else. -/
def clearAllFilters (s : AppState) : AppState :=
  { s with selectedCategories := ∅, searchQuery := "" }

/-- The gallery image selection for one subfolder (line 576 of the
source): the full list when the subfolder is the active one, otherwise
the preview. -/
def imagesFor (activeSubfolder : Option String) (sub : Subfolder) : List CatalogItem :=
  if activeSubfolder = some sub.id then sub.all else sub.preview

-- ---------- Spec-side definitions (phrased from the specification) ----------

/-- Spec wording for the item id: the record's id, else fileId, else
name. -/
def specItemId (f : FileObj) : Option String :=
  if isTruthy f.id then f.id
  else if isTruthy f.fileId then f.fileId
  else f.name

/-- Spec wording for the item name: the record's name, else title, else
the fileName with its final extension removed, else the computed id. -/
def specItemName (f : FileObj) : Option String :=
  if isTruthy f.name then f.name
  else if isTruthy f.title then f.title
  else if isTruthy (f.fileName.map fileStem) then f.fileName.map fileStem
  else specItemId f

/-- Spec wording for the item image: the record's image, else a Google
Drive URL built from the id when the id is truthy, else null. -/
def specItemImage (f : FileObj) : Option String :=
  if isTruthy f.image then f.image
  else if isTruthy (specItemId f) then
    some ("https://drive.google.com/uc?id=" ++ (specItemId f).getD "")
  else none

/-- Spec wording of the retention condition of the filter/search
computation: a subfolder is retained exactly when (the query is empty,
or the subfolder name or its category name contains the query
case-insensitively) and (the selected set is empty, or it contains the
category id). -/
def retainSpec (category : Category) (q : String) (sel : Finset String)
    (sub : Subfolder) : Prop :=
  (q = ""
    ∨ jsIncludes (jsToLower sub.name) (jsToLower q) = true
    ∨ jsIncludes (jsToLower category.name) (jsToLower q) = true)
  ∧ (sel = ∅ ∨ category.id ∈ sel)

instance (category : Category) (q : String) (sel : Finset String) (sub : Subfolder) :
    Decidable (retainSpec category q sel sub) := by
  unfold retainSpec; infer_instance

/-- Spec wording of the whole filter/search computation: keep in each
category exactly the retained subfolders, and drop every category whose
retained subfolder list is empty, preserving order and contents. -/
def filteredCatalogSpec (catalog : List Category) (q : String)
    (sel : Finset String) : List Category :=
  catalog.filterMap (fun category =>
    let subs := category.subfolders.filter (fun sub => decide (retainSpec category q sel sub))
    if subs = [] then none else some { category with subfolders := subs })

-- ---------- Concrete sample data ----------

/-- A concrete component state used to instantiate theorems. -/
def state0 : AppState :=
  { catalog := [⟨"c1", "Silk", [⟨"s1", "Red", [], []⟩]⟩]
    loading := false
    activeSubfolder := none
    lightboxIndex := none
    lightboxItems := []
    error := none
    searchQuery := ""
    selectedCategories := ∅
    favorites := ∅
    mobileMenuOpen := false
    viewMode := .grid
    showFilters := false }

/-- A concrete category with no subfolders. -/
def catNoSubs : Category := ⟨"c1", "Silk", []⟩

/-- A concrete one-item lightbox list. -/
def items1 : List CatalogItem := [⟨some "a", some "a", none⟩]

/-- A concrete raw item array with a duplicated id. -/
def arr2 : List (Option FileObj) :=
  [some ⟨some "a", none, some "A", none, none, none⟩,
   some ⟨some "a", none, some "A2", none, none, none⟩]

/-- The normalized item produced from the first record of arr2. -/
def itemA : CatalogItem :=
  ⟨some "a", some "A", some "https://drive.google.com/uc?id=a"⟩

/-- A concrete raw subfolder record. -/
def rawSub1 : RawSub :=
  ⟨"s1", "Red", none, some [some ⟨some "x", none, some "X", none, none, none⟩], none⟩

-- ---------- Helper lemmas ----------

lemma filteredCatalog_no_query_no_sel (catalog : List Category) :
    filteredCatalog catalog "" ∅ = catalog := by
  simp [filteredCatalog]

lemma subMatches_iff_retainSpec (category : Category) (q : String)
    (sel : Finset String) (sub : Subfolder) :
    subMatches category q sel sub = true ↔ retainSpec category q sel sub := by
  simp only [subMatches, retainSpec, Bool.and_eq_true, Bool.or_eq_true, beq_iff_eq,
    Finset.card_eq_zero, decide_eq_true_eq]
  tauto

lemma normFiles_truthy (arr : List (Option FileObj)) :
    ∀ v ∈ normalizeFilesArray arr, isTruthy v.id = true := by
  intro v hv
  unfold normalizeFilesArray at hv
  obtain ⟨p, hp, rfl⟩ := List.mem_map.mp hv
  have hk := List.of_mem_filter hp
  simp only [keepFirst, Bool.and_eq_true] at hk
  exact hk.1

lemma normFiles_sublist (arr : List (Option FileObj)) :
    List.Sublist (normalizeFilesArray arr) (arr.filterMap normalizeFileObj) := by
  unfold normalizeFilesArray
  have hsub : List.Sublist
      ((arr.filterMap normalizeFileObj).enum.filter
        (fun p => keepFirst (arr.filterMap normalizeFileObj) p.1 p.2))
      ((arr.filterMap normalizeFileObj).enum) :=
    List.filter_sublist _
  have h1 := hsub.map Prod.snd
  rwa [List.enum_map_snd] at h1

lemma normFiles_pairwise (arr : List (Option FileObj)) :
    (normalizeFilesArray arr).Pairwise (fun x y => x.id ≠ y.id) := by
  unfold normalizeFilesArray
  rw [List.pairwise_map]
  have hnd : ((arr.filterMap normalizeFileObj).enum).Pairwise
      (fun a b : Nat × CatalogItem => a.1 ≠ b.1) :=
    List.pairwise_map.mp (List.nodup_enum_map_fst (arr.filterMap normalizeFileObj))
  have hsub : List.Sublist
      ((arr.filterMap normalizeFileObj).enum.filter
        (fun p => keepFirst (arr.filterMap normalizeFileObj) p.1 p.2))
      ((arr.filterMap normalizeFileObj).enum) :=
    List.filter_sublist _
  have hfil := List.Pairwise.sublist hsub hnd
  refine List.Pairwise.imp_of_mem ?_ hfil
  intro a b ha hb hne heq
  have ka := List.of_mem_filter ha
  have kb := List.of_mem_filter hb
  simp only [keepFirst, Bool.and_eq_true, beq_iff_eq] at ka kb
  apply hne
  rw [← ka.2, ← kb.2, heq]

lemma findIdx_pred {α : Type} (p : α → Bool) (l : List α) (hk : l.findIdx p < l.length) :
    p (l.get ⟨l.findIdx p, hk⟩) = true := by
  have h : l[l.findIdx p]? = some (l.get ⟨l.findIdx p, hk⟩) := by
    simp [List.getElem?_eq_getElem hk]
  exact List.findIdx_of_getElem?_eq_some h

lemma normFiles_first_occurrence (arr : List (Option FileObj)) :
    ∀ v ∈ arr.filterMap normalizeFileObj, isTruthy v.id = true →
      ∀ hk : (arr.filterMap normalizeFileObj).findIdx
          (fun x : CatalogItem => x.id == v.id) < (arr.filterMap normalizeFileObj).length,
        (arr.filterMap normalizeFileObj).get
            ⟨(arr.filterMap normalizeFileObj).findIdx
              (fun x : CatalogItem => x.id == v.id), hk⟩ ∈ normalizeFilesArray arr
        ∧ ((arr.filterMap normalizeFileObj).get
            ⟨(arr.filterMap normalizeFileObj).findIdx
              (fun x : CatalogItem => x.id == v.id), hk⟩).id = v.id := by
  intro v _ htr hk
  have hw := findIdx_pred (fun x : CatalogItem => x.id == v.id)
    (arr.filterMap normalizeFileObj) hk
  have hwid : ((arr.filterMap normalizeFileObj).get
      ⟨(arr.filterMap normalizeFileObj).findIdx (fun x : CatalogItem => x.id == v.id), hk⟩).id
      = v.id := by
    simpa using hw
  refine ⟨?_, hwid⟩
  unfold normalizeFilesArray
  refine List.mem_map.mpr
    ⟨((arr.filterMap normalizeFileObj).findIdx (fun x : CatalogItem => x.id == v.id),
      (arr.filterMap normalizeFileObj).get
        ⟨(arr.filterMap normalizeFileObj).findIdx (fun x : CatalogItem => x.id == v.id), hk⟩),
      List.mem_filter.mpr ⟨?_, ?_⟩, rfl⟩
  · rw [List.mem_enum_iff_getElem?]
    simp [List.getElem?_eq_getElem hk]
  · simp only [keepFirst, Bool.and_eq_true, beq_iff_eq]
    refine ⟨by rw [hwid]; exact htr, ?_⟩
    simp only [hwid, beq_iff_eq]

lemma normFiles_represented (arr : List (Option FileObj)) :
    ∀ v ∈ arr.filterMap normalizeFileObj, isTruthy v.id = true →
      ∃ w ∈ normalizeFilesArray arr, w.id = v.id := by
  intro v hv htr
  have hex : ∃ x ∈ arr.filterMap normalizeFileObj, (fun x : CatalogItem => x.id == v.id) x :=
    ⟨v, hv, by simp⟩
  have hk : (arr.filterMap normalizeFileObj).findIdx
      (fun x : CatalogItem => x.id == v.id) < (arr.filterMap normalizeFileObj).length :=
    List.findIdx_lt_length_of_exists hex
  obtain ⟨hmem, hid⟩ := normFiles_first_occurrence arr v hv htr hk
  exact ⟨_, hmem, hid⟩

lemma mapFilter_eq_spec (q : String) (sel : Finset String) (catalog : List Category) :
    ((catalog.map (fun category =>
      { category with
        subfolders := category.subfolders.filter (subMatches category q sel) })).filter
      (fun category => decide (category.subfolders.length > 0)))
    = filteredCatalogSpec catalog q sel := by
  induction catalog with
  | nil => rfl
  | cons c rest ih =>
    have hpred : c.subfolders.filter (subMatches c q sel)
        = c.subfolders.filter (fun sub => decide (retainSpec c q sel sub)) := by
      apply List.filter_congr
      intro sub _
      have hiff := subMatches_iff_retainSpec c q sel sub
      by_cases h : retainSpec c q sel sub
      · simp [hiff.mpr h, h]
      · cases hb : subMatches c q sel sub
        · simp [h]
        · exact absurd (hiff.mp hb) h
    by_cases hempty : c.subfolders.filter (fun sub => decide (retainSpec c q sel sub)) = []
    · simp only [List.map_cons, List.filter_cons, filteredCatalogSpec, List.filterMap_cons,
        hpred, hempty] at ih ⊢
      simpa using ih
    · simp only [List.map_cons, List.filter_cons, filteredCatalogSpec, List.filterMap_cons,
        hpred] at ih ⊢
      have hlen : 0 < (c.subfolders.filter (fun sub => decide (retainSpec c q sel sub))).length :=
        List.length_pos.mpr hempty
      simp only [hempty, hlen]
      simpa using ih

lemma toggleFavorite_mem_self (x : String) (s : Finset String) :
    x ∈ toggleFavorite x s ↔ x ∉ s := by
  unfold toggleFavorite
  by_cases h : x ∈ s <;> simp [h]

lemma toggleFavorite_mem_other (x j : String) (s : Finset String) (hj : j ≠ x) :
    j ∈ toggleFavorite x s ↔ j ∈ s := by
  unfold toggleFavorite
  by_cases h : x ∈ s <;> simp [h, hj]

lemma toggleFavorite_involutive (x : String) (s : Finset String) :
    toggleFavorite x (toggleFavorite x s) = s := by
  unfold toggleFavorite
  by_cases h : x ∈ s
  · rw [if_pos h, if_neg (by simp), Finset.insert_erase h]
  · rw [if_neg h, if_pos (Finset.mem_insert_self x s), Finset.erase_insert h]

lemma toggleCategoryFilter_eq_toggleFavorite (x : String) (s : Finset String) :
    toggleCategoryFilter x s = toggleFavorite x s := rfl

-- ---------- Claim theorems ----------

/-- C1: loadCatalog sets error to the static message "Cannot fetch
catalog" exactly when the fetch fails or the response is not an array,
and on that error path the previously stored catalog is unchanged. -/
theorem C1_loadCatalog_error_state (s : AppState) (data : FetchResult) :
    ((loadCatalog s data).error = some "Cannot fetch catalog" ↔ data.isBad = true)
    ∧ (data.isBad = true → (loadCatalog s data).catalog = s.catalog) := by
  cases data <;> simp [loadCatalog, FetchResult.isBad]

/-- Witness for C1: the failing fetch outcome at a concrete state. -/
theorem C1_witness :
    (loadCatalog state0 FetchResult.fail).error = some "Cannot fetch catalog"
    ∧ (loadCatalog state0 FetchResult.fail).catalog = state0.catalog :=
  ⟨(C1_loadCatalog_error_state state0 FetchResult.fail).1.mpr rfl,
   (C1_loadCatalog_error_state state0 FetchResult.fail).2 rfl⟩

/-- C2: normalizeFilesArray drops entries that normalize to null or
have a falsy id, keeps only the first occurrence of each id (every
truthy id surviving normalization is represented), is order-preserving,
and its output has pairwise distinct truthy ids. -/
theorem C2_normalizeFilesArray_dedup (arr : List (Option FileObj)) :
    (normalizeFilesArray arr).Pairwise (fun x y => x.id ≠ y.id)
    ∧ (∀ v ∈ normalizeFilesArray arr, isTruthy v.id = true)
    ∧ List.Sublist (normalizeFilesArray arr) (arr.filterMap normalizeFileObj)
    ∧ (∀ v ∈ arr.filterMap normalizeFileObj, isTruthy v.id = true →
        ∃ w ∈ normalizeFilesArray arr, w.id = v.id)
    ∧ (∀ v ∈ arr.filterMap normalizeFileObj, isTruthy v.id = true →
        ∀ hk : (arr.filterMap normalizeFileObj).findIdx
            (fun x : CatalogItem => x.id == v.id) < (arr.filterMap normalizeFileObj).length,
          (arr.filterMap normalizeFileObj).get
              ⟨(arr.filterMap normalizeFileObj).findIdx
                (fun x : CatalogItem => x.id == v.id), hk⟩ ∈ normalizeFilesArray arr
          ∧ ((arr.filterMap normalizeFileObj).get
              ⟨(arr.filterMap normalizeFileObj).findIdx
                (fun x : CatalogItem => x.id == v.id), hk⟩).id = v.id) :=
  ⟨normFiles_pairwise arr, normFiles_truthy arr, normFiles_sublist arr,
   normFiles_represented arr, normFiles_first_occurrence arr⟩

/-- Witness for C2: the duplicated id "a" of arr2 survives exactly once
with a truthy id. -/
theorem C2_witness :
    isTruthy itemA.id = true ∧ ∃ w ∈ normalizeFilesArray arr2, w.id = itemA.id :=
  ⟨(C2_normalizeFilesArray_dedup arr2).2.1 itemA (by decide),
   (C2_normalizeFilesArray_dedup arr2).2.2.2.1 itemA (by decide) (by decide)⟩

/-- C3: normalizeFileObj returns null on a falsy input and otherwise
builds the item by the claimed fallback chains for id, name and
image. -/
theorem C3_normalizeFileObj_fallbacks (f : FileObj) :
    normalizeFileObj (some f) = some ⟨specItemId f, specItemName f, specItemImage f⟩
    ∧ normalizeFileObj none = none :=
  ⟨rfl, rfl⟩

/-- C4 counterexample: with the empty query and no selected categories,
a category whose retained subfolder list is empty is NOT removed; the
early return hands back the stored catalog unchanged. -/
theorem C4_counterexample :
    catNoSubs ∈ filteredCatalog [catNoSubs] "" ∅ ∧ catNoSubs.subfolders = [] := by
  constructor
  · simp [filteredCatalog]
  · rfl

/-- C4 (amended): when the query is nonempty or some category is
selected, filteredCatalog retains a subfolder exactly under the claimed
search and category conditions and removes categories whose retained
subfolder list is empty, preserving order and contents; when the query
is empty and no category is selected it returns the stored catalog
unchanged, including categories with no subfolders. -/
theorem C4_filteredCatalog_amended (catalog : List Category) (q : String)
    (sel : Finset String) :
    filteredCatalog catalog q sel =
      if q = "" ∧ sel = ∅ then catalog else filteredCatalogSpec catalog q sel := by
  unfold filteredCatalog
  by_cases h : q = "" ∧ sel = ∅
  · rw [if_pos ⟨h.1, by rw [h.2]; exact Finset.card_empty⟩, if_pos h]
  · have h2 : ¬(q = "" ∧ sel.card = 0) := by
      intro hc
      exact h ⟨hc.1, Finset.card_eq_zero.mp hc.2⟩
    rw [if_neg h2, if_neg h]
    exact mapFilter_eq_spec q sel catalog

/-- C5: with the empty query and an empty selected set, the
filter/search computation is the identity on the catalog. -/
theorem C5_filteredCatalog_identity (catalog : List Category) :
    filteredCatalog catalog "" ∅ = catalog :=
  filteredCatalog_no_query_no_sel catalog

/-- C6: per-subfolder normalization yields a preview of at most 5
deduplicated items from the preview (or files) field, a full list that
is the normalized all (or files) field with fallback to the preview
when that normalizes to empty, and the gallery renders the full list
exactly when the subfolder is the expanded one. -/
theorem C6_preview_and_all (sub : RawSub) (active : Option String) :
    (normalizeSub sub).preview.length ≤ 5
    ∧ (normalizeSub sub).preview
        = (normalizeFilesArray (pickArr sub.preview sub.files)).take 5
    ∧ (normalizeSub sub).preview.Pairwise (fun x y => x.id ≠ y.id)
    ∧ (normalizeFilesArray (pickArr sub.all sub.files) = [] →
        (normalizeSub sub).all = (normalizeSub sub).preview)
    ∧ (normalizeFilesArray (pickArr sub.all sub.files) ≠ [] →
        (normalizeSub sub).all = normalizeFilesArray (pickArr sub.all sub.files))
    ∧ imagesFor (some sub.id) (normalizeSub sub) = (normalizeSub sub).all
    ∧ (active ≠ some sub.id → imagesFor active (normalizeSub sub) = (normalizeSub sub).preview) := by
  refine ⟨?_, rfl, ?_, ?_, ?_, ?_, ?_⟩
  · simp only [normalizeSub, List.length_take]
    omega
  · exact List.Pairwise.sublist (List.take_sublist 5 _) (normFiles_pairwise _)
  · intro h
    simp [normalizeSub, h]
  · intro h
    simp [normalizeSub, List.isEmpty_iff, h]
  · simp [imagesFor, normalizeSub]
  · intro h
    simp [imagesFor, normalizeSub, h]

/-- Witness for C6: a collapsed subfolder renders its preview, and the
nonempty normalized files list is taken as the full list. -/
theorem C6_witness :
    imagesFor none (normalizeSub rawSub1) = (normalizeSub rawSub1).preview
    ∧ (normalizeSub rawSub1).all = normalizeFilesArray (pickArr rawSub1.all rawSub1.files) :=
  ⟨(C6_preview_and_all rawSub1 none).2.2.2.2.2.2 (by decide),
   (C6_preview_and_all rawSub1 none).2.2.2.2.1 (by decide)⟩

/-- C7 counterexample: applying toggleSubfolder("a") twice starting
from the state where "b" is expanded does not restore that state (it
ends with nothing expanded). -/
theorem C7_counterexample :
    toggleSubfolder "a" (toggleSubfolder "a" (some "b")) ≠ some "b" := by
  decide

/-- C7 (amended): toggleSubfolder(s) collapses to null exactly when s
was already expanded and otherwise makes s the only expanded subfolder;
applying it twice restores the original state when that state was null
or s itself, while from a state where a different subfolder was
expanded two applications leave the state null. -/
theorem C7_toggleSubfolder_amended (s : String) (prev : Option String) :
    (toggleSubfolder s prev = none ↔ prev = some s)
    ∧ (prev ≠ some s → toggleSubfolder s prev = some s)
    ∧ (prev = none ∨ prev = some s → toggleSubfolder s (toggleSubfolder s prev) = prev)
    ∧ (prev ≠ none → prev ≠ some s → toggleSubfolder s (toggleSubfolder s prev) = none) := by
  by_cases h : prev = some s
  · subst h
    refine ⟨by simp [toggleSubfolder], by simp, fun _ => by simp [toggleSubfolder], ?_⟩
    intro _ h2
    exact absurd rfl h2
  · refine ⟨?_, fun _ => by simp [toggleSubfolder, h], ?_, ?_⟩
    · simp [toggleSubfolder, h]
    · rintro (h1 | h1)
      · subst h1
        simp [toggleSubfolder]
      · exact absurd h1 h
    · intro _ _
      simp [toggleSubfolder, h]

/-- Witness for C7: from a state with a different subfolder expanded,
one application expands s, and the double application from null
restores null. -/
theorem C7_witness :
    toggleSubfolder "a" (some "b") = some "a"
    ∧ toggleSubfolder "a" (toggleSubfolder "a" none) = none :=
  ⟨(C7_toggleSubfolder_amended "a" (some "b")).2.1 (by decide),
   (C7_toggleSubfolder_amended "a" none).2.2.1 (Or.inl rfl)⟩

/-- C8: toggleFavorite and toggleCategoryFilter flip the membership of
exactly the toggled id, leave every other id unchanged, and are
involutions. -/
theorem C8_toggles_involutive (x j : String) (s : Finset String) :
    (x ∈ toggleFavorite x s ↔ x ∉ s)
    ∧ (j ≠ x → (j ∈ toggleFavorite x s ↔ j ∈ s))
    ∧ toggleFavorite x (toggleFavorite x s) = s
    ∧ (x ∈ toggleCategoryFilter x s ↔ x ∉ s)
    ∧ (j ≠ x → (j ∈ toggleCategoryFilter x s ↔ j ∈ s))
    ∧ toggleCategoryFilter x (toggleCategoryFilter x s) = s := by
  refine ⟨toggleFavorite_mem_self x s, fun hj => toggleFavorite_mem_other x j s hj,
    toggleFavorite_involutive x s, ?_, ?_, ?_⟩
  · rw [toggleCategoryFilter_eq_toggleFavorite]
    exact toggleFavorite_mem_self x s
  · intro hj
    rw [toggleCategoryFilter_eq_toggleFavorite]
    exact toggleFavorite_mem_other x j s hj
  · rw [toggleCategoryFilter_eq_toggleFavorite, toggleCategoryFilter_eq_toggleFavorite]
    exact toggleFavorite_involutive x s

/-- Witness for C8: toggling "x" does not change membership of the
other id "j". -/
theorem C8_witness :
    ("j" ∈ toggleFavorite "x" (∅ : Finset String) ↔ "j" ∈ (∅ : Finset String))
    ∧ ("j" ∈ toggleCategoryFilter "x" (∅ : Finset String) ↔ "j" ∈ (∅ : Finset String)) :=
  ⟨(C8_toggles_involutive "x" "j" ∅).2.1 (by decide),
   (C8_toggles_involutive "x" "j" ∅).2.2.2.2.1 (by decide)⟩

/-- C9: with a nonempty lightbox list and an in-range index, nextImage
and prevImage stay in range, wrap around at the ends, and are mutually
inverse; on a null index both are the identity. -/
theorem C9_lightbox_cyclic (items : List CatalogItem) (i : Nat)
    (hi : i < items.length) :
    (∃ j, nextImage items (some i) = some j ∧ j < items.length)
    ∧ (∃ j, prevImage items (some i) = some j ∧ j < items.length)
    ∧ nextImage items (some (items.length - 1)) = some 0
    ∧ prevImage items (some 0) = some (items.length - 1)
    ∧ prevImage items (nextImage items (some i)) = some i
    ∧ nextImage items (prevImage items (some i)) = some i
    ∧ nextImage items none = none
    ∧ prevImage items none = none := by
  refine ⟨⟨_, rfl, ?_⟩, ⟨_, rfl, ?_⟩, ?_, ?_, ?_, ?_, rfl, rfl⟩
  · split <;> omega
  · split <;> omega
  · simp [nextImage]
  · simp [prevImage]
  · simp only [nextImage, prevImage]
    split_ifs <;> simp only [Option.some.injEq] <;> omega
  · simp only [nextImage, prevImage]
    split_ifs <;> simp only [Option.some.injEq] <;> omega

/-- Witness for C9: on the one-item list, next then prev restores the
index 0. -/
theorem C9_witness :
    prevImage items1 (nextImage items1 (some 0)) = some 0 :=
  (C9_lightbox_cyclic items1 0 (by decide)).2.2.2.2.1

/-- C10: clearAllFilters empties the selected set and blanks the query,
changes no other state field, and immediately afterwards the
filter/search computation is the identity on the stored catalog. -/
theorem C10_clearAllFilters_frame (s : AppState) :
    (clearAllFilters s).selectedCategories = ∅
    ∧ (clearAllFilters s).searchQuery = ""
    ∧ (clearAllFilters s).catalog = s.catalog
    ∧ (clearAllFilters s).loading = s.loading
    ∧ (clearAllFilters s).activeSubfolder = s.activeSubfolder
    ∧ (clearAllFilters s).lightboxIndex = s.lightboxIndex
    ∧ (clearAllFilters s).lightboxItems = s.lightboxItems
    ∧ (clearAllFilters s).error = s.error
    ∧ (clearAllFilters s).favorites = s.favorites
    ∧ (clearAllFilters s).mobileMenuOpen = s.mobileMenuOpen
    ∧ (clearAllFilters s).viewMode = s.viewMode
    ∧ (clearAllFilters s).showFilters = s.showFilters
    ∧ filteredCatalog (clearAllFilters s).catalog (clearAllFilters s).searchQuery
        (clearAllFilters s).selectedCategories = s.catalog := by
  refine ⟨rfl, rfl, rfl, rfl, rfl, rfl, rfl, rfl, rfl, rfl, rfl, rfl, ?_⟩
  exact filteredCatalog_no_query_no_sel s.catalog

end Saree
